import Mathlib

/-!
Verification of the AI trip planner (`app.py`, `mcp_server.py`).

Strings are Lean `String`s, manipulated through their character lists so that
every operation is structural and executable.  Python's `str.strip`,
`str.lower`, `str.capitalize`, and substring tests are translated char-wise
(`Char.toLower`/`Char.toUpper` fold ASCII case, which covers every string the
program compares).  External HTTP calls are passed in as explicit arguments:
the OpenWeather response is an `Except String WeatherResponse` (a transport or
JSON exception is the `error` case), the generative model and translator are
function arguments.  Python `float` amounts are modelled as exact rationals.
-/

namespace TripPlanner

/-- Character-wise lower casing, the translation of Python `str.lower()`. -/
def toLowerL (l : List Char) : List Char := l.map Char.toLower

/-- Leading and trailing whitespace removal, the translation of `str.strip()`. -/
def trimL (l : List Char) : List Char :=
  ((l.dropWhile Char.isWhitespace).reverse.dropWhile Char.isWhitespace).reverse

/-- `s.lower()` on a `String`. -/
def strLower (s : String) : String := ⟨toLowerL s.data⟩

/-- `s.strip()` on a `String`. -/
def strip (s : String) : String := ⟨trimL s.data⟩

/-- Substring containment on character lists: Python's `pat in s`. -/
def hasSub (s pat : List Char) : Bool := s.tails.any fun t => List.isPrefixOf pat t

/-- Python's `pat in s` on `String`s. -/
def strContains (s pat : String) : Bool := hasSub s.data pat.data

/-- `app.py` line 133: `line.strip().lower().startswith("day")`,
the day-boundary detector of the merge loop. -/
def isBoundaryLine (line : String) : Bool :=
  List.isPrefixOf "day".data (strLower (strip line)).data

/-- `app.py` lines 48-54, `smart_suggestion(weather_desc)`. -/
def smart_suggestion (weather_desc : String) : String :=
  if strContains (strLower weather_desc) "rain" ∨ strContains (strLower weather_desc) "storm" then
    "🌧 Suggested: Indoor activities (museums, cafes, shopping)."
  else if strContains (strLower weather_desc) "clear" ∨ strContains (strLower weather_desc) "sun" then
    "☀️ Suggested: Outdoor sightseeing, beaches, local tours."
  else
    "✨ Suggested: Flexible activities depending on mood!"

/-- `app.py` line 136: the inserted weather-summary line (without its `\n`). -/
def weather_note (w : String) : String := "   🌦 Weather: " ++ w

/-- `app.py` line 137: the inserted suggestion line (without its `\n`). -/
def suggestion_note (w : String) : String := "   💡 " ++ smart_suggestion w

/-- `app.py` lines 130-140, the merge loop, at the level of emitted lines.
`ws` is `weather_forecast`, the second list argument is the result of
`itinerary.split("\n")`, and the `Nat` is the running `weather_index`.
Each emitted line carries a trailing `\n` in the source; `renderLines` below
restores that rendering. -/
def merge_lines (ws : List String) : List String → Nat → List String
  | [], _ => []
  | line :: rest, i =>
    if isBoundaryLine line ∧ i < ws.length then
      line :: weather_note (ws.getD i "") :: suggestion_note (ws.getD i "")
        :: merge_lines ws rest (i + 1)
    else
      line :: merge_lines ws rest i

/-- Split a character list at `'\n'`, the translation of Python
`text.split("\n")` (always returns at least one piece). -/
def splitNl : List Char → List (List Char)
  | [] => [[]]
  | c :: cs =>
    match splitNl cs with
    | [] => [[]]
    | r :: rs => if c = '\n' then [] :: r :: rs else (c :: r) :: rs

/-- `text.split("\n")` on `String`s. -/
def splitLines (s : String) : List String := (splitNl s.data).map String.mk

/-- Concatenate lines, each followed by `"\n"` — how the merge loop of
`app.py` lines 130-140 accumulates `itinerary_with_weather`. -/
def renderLines : List String → String
  | [] => ""
  | l :: ls => l ++ "\n" ++ renderLines ls

/-- Concatenation of character-list lines, each followed by `'\n'` —
`renderLines` seen through `String.data`. -/
def joinAux : List (List Char) → List Char
  | [] => []
  | l :: ls => l ++ '\n' :: joinAux ls

/-- Python `"\n".join(places)` (`app.py` line 144). -/
def joinNl : List String → String
  | [] => ""
  | [s] => s
  | s :: rest => s ++ "\n" ++ joinNl rest

/-- The fixed places header appended at `app.py` line 144. -/
def places_header : String := "\n\n🏙 Recommended Places to Visit:\n"

/-- The merge loop applied to the raw itinerary text (`app.py` lines 130-140). -/
def itinerary_with_weather (itinerary : String) (ws : List String) : String :=
  renderLines (merge_lines ws (splitLines itinerary) 0)

/-- The full Enrichment Merger: merge loop plus the unconditional places
append (`app.py` lines 130-144). -/
def merge_enrichment (itinerary : String) (ws places : List String) : String :=
  itinerary_with_weather itinerary ws ++ places_header ++ joinNl places

/-- Number of day-boundary lines detected in a line list. -/
def boundary_count (lines : List String) : Nat := lines.countP isBoundaryLine

/-- Number of weather blocks (weather-summary line plus suggestion line)
inserted by the merge loop: each block adds exactly two lines. -/
def inserted_block_count (ws lines : List String) : Nat :=
  ((merge_lines ws lines 0).length - lines.length) / 2

/-- Modelled from the spec: the merge loop restated so the positional
matching is manifest — walking the lines, the next unconsumed weather entry
is attached to each boundary line, so the Nth boundary line gets the Nth
weather entry, each block sits immediately after its boundary line, and
non-boundary lines pass through unchanged. -/
def interleave_spec : List String → List String → List String
  | [], _ => []
  | line :: rest, [] => line :: interleave_spec rest []
  | line :: rest, w :: ws =>
    if isBoundaryLine line then
      line :: weather_note w :: suggestion_note w :: interleave_spec rest ws
    else
      line :: interleave_spec rest (w :: ws)

/-- One entry of the OpenWeather `"list"` field, with the two fields the
adapter reads: `forecast["main"]["temp"]` (kept as its rendered text) and
`forecast["weather"][0]["description"]`. -/
structure ForecastEntry where
  temp : String
  desc : String
deriving DecidableEq

/-- The decoded OpenWeather JSON body together with the HTTP status:
`list = none` models `"list" not in data`. -/
structure WeatherResponse where
  status : Nat
  list : Option (List ForecastEntry)
deriving DecidableEq

/-- Python `str.capitalize()`: first character upper-cased, rest lower-cased. -/
def pyCapitalize (s : String) : String :=
  match s.data with
  | [] => ""
  | c :: cs => ⟨c.toUpper :: toLowerL cs⟩

/-- `app.py` lines 38-40: the per-day summary string
`f"Day {i+1}: {desc}, {temp}°C"` built from entry `i` of the forecast. -/
def day_summary (i : Nat) (f : ForecastEntry) : String :=
  "Day " ++ toString (i + 1) ++ ": " ++ pyCapitalize f.desc ++ ", " ++ f.temp ++ "°C"

/-- `app.py` lines 36-41: the sampling loop `for i in range(days)` reading
`data["list"][i * 8]`.  An out-of-range read is the `IndexError` that the
surrounding `try` converts to a single error entry, so the loop result is
all-or-nothing: `error` discards every summary built so far. -/
def forecast_loop (entries : List ForecastEntry) : Nat → Nat → Except String (List String)
  | _, 0 => Except.ok []
  | i, k + 1 =>
    match entries[i * 8]? with
    | none => Except.error "list index out of range"
    | some f =>
      match forecast_loop entries (i + 1) k with
      | Except.error e => Except.error e
      | Except.ok rest => Except.ok (day_summary i f :: rest)

/-- Python truthiness of the `OPENWEATHER_API_KEY` value: `not api_key` is
true when the variable is unset or the empty string (`app.py` line 24). -/
def key_configured (api_key : Option String) : Bool :=
  match api_key with
  | none => false
  | some k => k != ""

/-- `app.py` lines 22-43, `get_weather_forecast(destination, days)`.
`api_key` is the `OPENWEATHER_API_KEY` environment value; `upstream` is the
outcome of `requests.get(url)` followed by `response.json()`, with
`Except.error` covering any transport or decoding exception. -/
def get_weather_forecast (destination : String) (days : Nat)
    (api_key : Option String) (upstream : Except String WeatherResponse) : List String :=
  if key_configured api_key = false then
    ["⚠️ No weather API key configured."]
  else
    match upstream with
    | Except.error e => ["⚠️ Error fetching weather: " ++ e]
    | Except.ok resp =>
      if resp.status != 200 || resp.list.isNone then
        ["⚠️ Weather not available for " ++ destination]
      else
        match forecast_loop (resp.list.getD []) 0 days with
        | Except.ok l => l
        | Except.error e => ["⚠️ Error fetching weather: " ++ e]

/-- A result entry is a warning when it starts with the `⚠` sign, as all
four fail-soft messages of `get_weather_forecast` do. -/
def is_warning (s : String) : Bool := s.data.head? == some '⚠'

/-- `app.py` line 176: the fixed category labels of the budget chart. -/
def budget_labels : List String := ["Travel", "Stay", "Food", "Activities", "Misc"]

/-- `app.py` line 177: `[budget * 0.3, budget * 0.25, budget * 0.2,
budget * 0.15, budget * 0.1]`, with the amounts as exact rationals. -/
def budget_values (budget : ℚ) : List ℚ :=
  [budget * 0.3, budget * 0.25, budget * 0.2, budget * 0.15, budget * 0.1]

/-- The Budget Splitter: the five `(label, amount)` pairs in chart order. -/
def budget_split (budget : ℚ) : List (String × ℚ) :=
  budget_labels.zip (budget_values budget)

/-- `app.py` lines 147-152: the translation step of the pipeline.
`translated` is the outcome of `GoogleTranslator(...).translate(text)`;
`Except.error` is the caught exception. -/
def apply_translation (language : String) (text : String)
    (translated : Except String String) : String :=
  if language = "English" then text
  else
    match translated with
    | Except.ok t => t
    | Except.error _ => text ++ "\n⚠️ Translation failed."

/-- `mcp_server.py` line 32: the prompt built by `translate_itinerary`. -/
def translate_prompt_text (itinerary language : String) : String :=
  "Translate the following itinerary into " ++ language ++ ", keep format neat:\n\n" ++ itinerary

/-- `mcp_server.py` lines 30-34, the `translate_itinerary` tool: it always
issues one generative request (`model`) with the translation prompt and
returns the response text, with no guard on the target language. -/
def translate_itinerary (itinerary language : String) (model : String → String) : String :=
  model (translate_prompt_text itinerary language)

/-- The session state owned by the Presentation Layer
(`st.session_state.itinerary` and `st.session_state.booking_done`). -/
structure AppState where
  itinerary : Option String
  booking_done : Bool
deriving DecidableEq

/-- `app.py` lines 103-106: both fields start unset/false. -/
def initState : AppState := ⟨none, false⟩

/-- Python truthiness of `st.session_state.itinerary` (`app.py` line 163):
the itinerary section, and with it the booking form, is rendered only when
the stored itinerary is set and non-empty. -/
def itinerary_shown (s : AppState) : Bool :=
  match s.itinerary with
  | none => false
  | some t => t != ""

/-- The two user actions that touch the session state: generating a new
itinerary (`app.py` lines 154-156) and submitting the booking form with a
traveller name (`app.py` lines 195-206). -/
inductive Event where
  | generate (text : String)
  | submitBooking (name : String)

/-- One user action applied to the session state.  The returned `Bool`
records whether a booking reference code was generated by this action.
Generation stores the stripped itinerary and resets `booking_done`; a
booking submission is only possible while the form is rendered
(itinerary shown and not yet booked), is rejected without any state change
when the stripped name is empty, and otherwise sets `booking_done` and
produces a reference code. -/
def step (s : AppState) : Event → AppState × Bool
  | Event.generate text => (⟨some (strip text), false⟩, false)
  | Event.submitBooking name =>
    if itinerary_shown s ∧ ¬ s.booking_done then
      if strip name = "" then (s, false)
      else ({ s with booking_done := true }, true)
    else (s, false)

theorem splitNl_ne_nil (cs : List Char) : splitNl cs ≠ [] := by
  cases cs with
  | nil => simp [splitNl]
  | cons c cs =>
    simp only [splitNl]
    split
    · simp
    · split <;> simp

theorem joinAux_splitNl (cs : List Char) : joinAux (splitNl cs) = cs ++ ['\n'] := by
  induction cs with
  | nil => simp [splitNl, joinAux]
  | cons c cs ih =>
    cases h : splitNl cs with
    | nil => exact absurd h (splitNl_ne_nil cs)
    | cons r rs =>
      rw [h] at ih
      simp only [joinAux] at ih
      by_cases hc : c = '\n'
      · subst hc
        simp only [splitNl, h, if_pos rfl, joinAux, List.nil_append, List.cons_append]
        rw [ih]
      · simp only [splitNl, h, if_neg hc, joinAux, List.cons_append]
        rw [ih]

theorem renderLines_data (ls : List String) :
    (renderLines ls).data = joinAux (ls.map String.data) := by
  induction ls with
  | nil => rfl
  | cons l ls ih =>
    have hnl : ("\n" : String).data = ['\n'] := rfl
    simp [renderLines, joinAux, String.data_append, ih, hnl]

theorem renderLines_splitLines (s : String) : renderLines (splitLines s) = s ++ "\n" := by
  apply String.ext
  rw [renderLines_data, String.data_append]
  have hmk : String.data ∘ String.mk = id := funext fun l => rfl
  rw [splitLines, List.map_map, hmk, List.map_id, joinAux_splitNl]

theorem merge_lines_nil_weather (lines : List String) (i : Nat) :
    merge_lines [] lines i = lines := by
  induction lines generalizing i with
  | nil => rfl
  | cons l rest ih => simp [merge_lines, ih]

theorem interleave_nonboundary (l : String) (hb : isBoundaryLine l = false)
    (rest ws : List String) :
    interleave_spec (l :: rest) ws = l :: interleave_spec rest ws := by
  cases ws with
  | nil => rfl
  | cons w ws => simp [interleave_spec, hb]

theorem merge_lines_eq_drop (ws lines : List String) (i : Nat) :
    merge_lines ws lines i = interleave_spec lines (ws.drop i) := by
  induction lines generalizing i with
  | nil => simp [merge_lines, interleave_spec]
  | cons l rest ih =>
    cases hb : isBoundaryLine l with
    | true =>
      by_cases hi : i < ws.length
      · rw [List.drop_eq_getElem_cons hi]
        simp only [merge_lines, interleave_spec]
        rw [if_pos ⟨hb, hi⟩, if_pos hb, ih (i + 1), List.getD_eq_getElem ws "" hi]
      · rw [List.drop_eq_nil_of_le (Nat.le_of_not_lt hi)]
        simp only [merge_lines, interleave_spec]
        rw [if_neg fun hc => hi hc.2, ih i, List.drop_eq_nil_of_le (Nat.le_of_not_lt hi)]
    | false =>
      rw [interleave_nonboundary l hb rest (ws.drop i)]
      simp only [merge_lines]
      rw [if_neg fun hc => by rw [hb] at hc; exact absurd hc.1 (by decide), ih i]

theorem interleave_spec_length (lines ws : List String) :
    (interleave_spec lines ws).length
      = lines.length + 2 * min ws.length (boundary_count lines) := by
  induction lines generalizing ws with
  | nil => simp [interleave_spec, boundary_count]
  | cons l rest ih =>
    cases hb : isBoundaryLine l with
    | false =>
      rw [interleave_nonboundary l hb rest ws]
      simp [boundary_count, List.countP_cons, hb, ih]
      omega
    | true =>
      cases ws with
      | nil =>
        simp [interleave_spec, boundary_count, List.countP_cons, hb, ih]
      | cons w ws =>
        simp [interleave_spec, hb, boundary_count, List.countP_cons, ih]
        omega

theorem sublist_interleave (lines ws : List String) :
    List.Sublist lines (interleave_spec lines ws) := by
  induction lines generalizing ws with
  | nil => simp [interleave_spec]
  | cons l rest ih =>
    cases ws with
    | nil =>
      simp only [interleave_spec]
      exact List.Sublist.cons₂ l (ih [])
    | cons w ws =>
      by_cases hb : isBoundaryLine l = true
      · simp only [interleave_spec, if_pos hb]
        exact List.Sublist.cons₂ l (List.Sublist.cons _ (List.Sublist.cons _ (ih ws)))
      · simp only [interleave_spec, if_neg hb]
        exact List.Sublist.cons₂ l (ih (w :: ws))

/-- Counterexample to C1: with day count D = 1 (within [1,30]), a weather
sequence of length W = 2 and an itinerary holding two boundary lines, the
merge loop inserts 2 weather blocks, exceeding min(D, W, boundaries) = 1.
The stated bound only holds when W ≤ D, which the pipeline (but not the
merger itself) guarantees. -/
theorem merge_bound_counterexample :
    inserted_block_count ["mist", "breeze"] (splitLines "Day 1: Beach\nDay 2: Hills") = 2
      ∧ min 1 (min 2 (boundary_count (splitLines "Day 1: Beach\nDay 2: Hills"))) = 1
      ∧ ¬ (inserted_block_count ["mist", "breeze"] (splitLines "Day 1: Beach\nDay 2: Hills")
            ≤ min 1 (min 2 (boundary_count (splitLines "Day 1: Beach\nDay 2: Hills")))) := by
  decide

/-- C1 (amended): for every weather sequence of length W and every line
sequence, the merge loop equals the positional interleaving `interleave_spec`
(so the Nth detected boundary line receives the Nth weather entry, with the
weather-summary line and the suggestion line immediately after it), it
inserts exactly min(W, number of detected boundary lines) two-line weather
blocks — hence at most min(D, W, boundaries) whenever W ≤ D, as the
pipeline's weather sequence satisfies — and the original lines survive as an
ordered sublist, so non-boundary lines are never reordered or altered. -/
theorem merge_positional_interleaving (ws lines : List String) :
    merge_lines ws lines 0 = interleave_spec lines ws
      ∧ inserted_block_count ws lines = min ws.length (boundary_count lines)
      ∧ List.Sublist lines (merge_lines ws lines 0) := by
  have h0 : merge_lines ws lines 0 = interleave_spec lines ws := by
    have h := merge_lines_eq_drop ws lines 0
    rwa [List.drop_zero] at h
  refine ⟨h0, ?_, ?_⟩
  · unfold inserted_block_count
    rw [h0, interleave_spec_length]
    omega
  · rw [h0]
    exact sublist_interleave lines ws

/-- C3: with an empty weather sequence, the Enrichment Merger's output is the
input itinerary text unchanged, with exactly one copy of the places block —
the fixed header plus the recommendations joined by newlines, preceded by
the loop's closing newline — appended at the end of the document. -/
theorem merge_empty_weather (itinerary : String) (places : List String) :
    merge_enrichment itinerary [] places
      = itinerary ++ ("\n" ++ places_header ++ joinNl places) := by
  unfold merge_enrichment itinerary_with_weather
  rw [merge_lines_nil_weather, renderLines_splitLines]
  apply String.ext
  simp [String.data_append]

/-- C2: for every budget B > 0, the Budget Splitter returns exactly the five
(label, amount) pairs [Travel, Stay, Food, Activities, Misc] with amounts
[0.30, 0.25, 0.20, 0.15, 0.10] · B in that order, and the amounts sum to B
(exactly, over the rationals, hence within any floating-point tolerance);
`budget_split` is a total function with no failure mode. -/
theorem budget_split_fixed (B : ℚ) (h : 0 < B) :
    budget_split B
        = [("Travel", B * 0.3), ("Stay", B * 0.25), ("Food", B * 0.2),
           ("Activities", B * 0.15), ("Misc", B * 0.1)]
      ∧ (budget_values B).sum = B := by
  refine ⟨rfl, ?_⟩
  simp only [budget_values, List.sum_cons, List.sum_nil]
  ring_nf

/-- Witness for C2 at the spec's end-to-end scenario budget 20000
(amounts [6000, 5000, 4000, 3000, 2000]). -/
theorem budget_split_fixed_witness :
    (0 : ℚ) < 20000
      ∧ (budget_split 20000
            = [("Travel", (20000 : ℚ) * 0.3), ("Stay", (20000 : ℚ) * 0.25),
               ("Food", (20000 : ℚ) * 0.2), ("Activities", (20000 : ℚ) * 0.15),
               ("Misc", (20000 : ℚ) * 0.1)]
          ∧ (budget_values 20000).sum = 20000) :=
  ⟨by norm_num, budget_split_fixed 20000 (by norm_num)⟩

/-- C6: when a non-default target language is selected and the translation
call fails, the pipeline does not abort — the final text is the
pre-translation text with the warning annotation appended at the end. -/
theorem translation_fail_appends (language text e : String) (h : language ≠ "English") :
    apply_translation language text (Except.error e) = text ++ "\n⚠️ Translation failed." := by
  simp [apply_translation, h]

/-- Witness for C6: a failing French translation of a concrete itinerary. -/
theorem translation_fail_appends_witness :
    apply_translation "French" "Day 1: beach" (Except.error "timeout")
      = "Day 1: beach" ++ "\n⚠️ Translation failed." :=
  translation_fail_appends "French" "Day 1: beach" "timeout" (by decide)

/-- Counterexample to C7: the remote tool wrapper's `translate_itinerary`
(`mcp_server.py` lines 30-34) has no guard on the target language — with
target "English" it still issues a generative request and returns the
model's response, here distinct from the input text. -/
theorem translate_noop_counterexample :
    translate_itinerary "Day 1: beach" "English" (fun _ => "Jour 1: plage") = "Jour 1: plage"
      ∧ "Jour 1: plage" ≠ "Day 1: beach" :=
  ⟨rfl, by decide⟩

/-- C7 (amended): in the `app.py` pipeline the translation step is a no-op
for target "English" — it returns the input unchanged whatever the
translation outcome, so no translation result is consulted — while the
remote tool wrapper's `translate_itinerary` always issues exactly one
generative request and returns its response text, for every language
including "English". -/
theorem translation_noop_english :
    (∀ (text : String) (r : Except String String), apply_translation "English" text r = text)
      ∧ (∀ (itinerary language : String) (model : String → String),
          translate_itinerary itinerary language model
            = model (translate_prompt_text itinerary language)) :=
  ⟨fun text r => by simp [apply_translation], fun _ _ _ => rfl⟩

theorem is_warning_append (s t : String) (h : is_warning s = true) :
    is_warning (s ++ t) = true := by
  unfold is_warning at h ⊢
  rw [String.data_append]
  cases hd : s.data with
  | nil => rw [hd] at h; simp at h
  | cons c cs =>
    rw [hd] at h
    simpa using h

theorem forecast_loop_ok_length (entries : List ForecastEntry) :
    ∀ (k i : Nat) (l : List String),
      forecast_loop entries i k = Except.ok l → l.length = k := by
  intro k
  induction k with
  | zero =>
    intro i l h
    simp only [forecast_loop] at h
    cases h
    rfl
  | succ k ih =>
    intro i l h
    cases hg : entries[i * 8]? with
    | none => simp [forecast_loop, hg] at h
    | some f =>
      cases hr : forecast_loop entries (i + 1) k with
      | error e => simp [forecast_loop, hg, hr] at h
      | ok rest =>
        simp only [forecast_loop, hg, hr, Except.ok.injEq] at h
        subst h
        simp [ih (i + 1) rest hr]

theorem forecast_loop_err (entries : List ForecastEntry) :
    ∀ (k i : Nat), (∃ j, i ≤ j ∧ j < i + k ∧ entries.length ≤ j * 8) →
      forecast_loop entries i k = Except.error "list index out of range" := by
  intro k
  induction k with
  | zero =>
    intro i h
    obtain ⟨j, h1, h2, _⟩ := h
    omega
  | succ k ih =>
    intro i h
    obtain ⟨j, h1, h2, h3⟩ := h
    cases hg : entries[i * 8]? with
    | none => simp [forecast_loop, hg]
    | some f =>
      have hi : i * 8 < entries.length := by
        rcases Nat.lt_or_ge (i * 8) entries.length with hlt | hge
        · exact hlt
        · rw [List.getElem?_eq_none hge] at hg; cases hg
      have hrec := ih (i + 1) ⟨j, by omega, by omega, h3⟩
      simp [forecast_loop, hg, hrec]

/-- C4: whenever the weather credential is missing, the upstream response has
a non-success status or lacks the `"list"` field, or the transport raised,
`get_weather_forecast` returns a single warning entry (hence an empty or
single-warning sequence) — it is a total function, so no error ever reaches
the caller. -/
theorem weather_fail_soft (destination : String) (days : Nat) (api_key : Option String)
    (upstream : Except String WeatherResponse)
    (h : key_configured api_key = false
        ∨ (∃ e, upstream = Except.error e)
        ∨ ∃ resp, upstream = Except.ok resp ∧ (resp.status ≠ 200 ∨ resp.list = none)) :
    ∃ w, get_weather_forecast destination days api_key upstream = [w]
        ∧ is_warning w = true := by
  rcases h with hk | ⟨e, he⟩ | ⟨resp, hresp, hfail⟩
  · refine ⟨"⚠️ No weather API key configured.", ?_, by decide⟩
    simp [get_weather_forecast, hk]
  · subst he
    by_cases hk : key_configured api_key = false
    · refine ⟨"⚠️ No weather API key configured.", ?_, by decide⟩
      simp [get_weather_forecast, hk]
    · refine ⟨"⚠️ Error fetching weather: " ++ e, ?_,
        is_warning_append "⚠️ Error fetching weather: " e (by decide)⟩
      simp [get_weather_forecast, hk]
  · subst hresp
    by_cases hk : key_configured api_key = false
    · refine ⟨"⚠️ No weather API key configured.", ?_, by decide⟩
      simp [get_weather_forecast, hk]
    · have hcond : (resp.status != 200 || resp.list.isNone) = true := by
        rcases hfail with hs | hl
        · simp only [Bool.or_eq_true]
          exact Or.inl (bne_iff_ne.mpr hs)
        · simp only [Bool.or_eq_true]
          exact Or.inr (by rw [hl]; rfl)
      refine ⟨"⚠️ Weather not available for " ++ destination, ?_,
        is_warning_append "⚠️ Weather not available for " destination (by decide)⟩
      simp [get_weather_forecast, hk, hcond]

/-- Witness for C4: no credential configured, an otherwise healthy upstream. -/
theorem weather_fail_soft_witness :
    ∃ w, get_weather_forecast "Goa" 3 none (Except.ok ⟨200, some []⟩) = [w]
        ∧ is_warning w = true :=
  weather_fail_soft "Goa" 3 none (Except.ok ⟨200, some []⟩) (Or.inl (by decide))

/-- C5: for every day count ≥ 1 and every upstream outcome (success or any
failure), the Weather Adapter's result has length at most the day count. -/
theorem weather_length_le (destination : String) (days : Nat) (api_key : Option String)
    (upstream : Except String WeatherResponse) (h : 1 ≤ days) :
    (get_weather_forecast destination days api_key upstream).length ≤ days := by
  by_cases hk : key_configured api_key = false
  · simp [get_weather_forecast, hk, h]
  · cases upstream with
    | error e => simp [get_weather_forecast, hk, h]
    | ok resp =>
      by_cases hs : (resp.status != 200 || resp.list.isNone) = true
      · simp [get_weather_forecast, hk, hs, h]
      · cases hl : forecast_loop (resp.list.getD []) 0 days with
        | error e => simp [get_weather_forecast, hk, hs, hl, h]
        | ok l =>
          have hlen := forecast_loop_ok_length (resp.list.getD []) days 0 l hl
          simp [get_weather_forecast, hk, hs, hl, hlen]

/-- Witness for C5 at day count 3 with a missing credential. -/
theorem weather_length_le_witness :
    (get_weather_forecast "Goa" 3 none (Except.ok ⟨200, some []⟩)).length ≤ 3 :=
  weather_length_le "Goa" 3 none (Except.ok ⟨200, some []⟩) (by decide)

/-- Counterexample to C9: at day count 0 (reachable through the remote tool
wrapper, which does not constrain `days`) with a credential configured and a
healthy upstream response, the sampling loop runs zero times and the adapter
returns the empty sequence. -/
theorem weather_empty_at_zero_days :
    get_weather_forecast "Goa" 0 (some "key") (Except.ok ⟨200, some []⟩) = [] := by
  decide

/-- C9 (amended): for every destination and every day count ≥ 1, the Weather
Adapter never returns an empty sequence — each failure path yields exactly
one warning entry and the success path yields one summary per day. -/
theorem weather_never_empty (destination : String) (days : Nat) (api_key : Option String)
    (upstream : Except String WeatherResponse) (h : 1 ≤ days) :
    get_weather_forecast destination days api_key upstream ≠ [] := by
  by_cases hk : key_configured api_key = false
  · simp [get_weather_forecast, hk]
  · cases upstream with
    | error e => simp [get_weather_forecast, hk]
    | ok resp =>
      by_cases hs : (resp.status != 200 || resp.list.isNone) = true
      · simp [get_weather_forecast, hk, hs]
      · cases hl : forecast_loop (resp.list.getD []) 0 days with
        | error e => simp [get_weather_forecast, hk, hs, hl]
        | ok l =>
          have hlen := forecast_loop_ok_length (resp.list.getD []) days 0 l hl
          simp only [get_weather_forecast, if_neg hk, hl]
          rw [if_neg hs]
          intro hnil
          rw [hnil] at hlen
          simp at hlen
          omega

/-- Witness for C9's amended statement at day count 1. -/
theorem weather_never_empty_witness :
    get_weather_forecast "Paris" 1 none (Except.ok ⟨200, some []⟩) ≠ [] :=
  weather_never_empty "Paris" 1 none (Except.ok ⟨200, some []⟩) (by decide)

/-- C10: the success path is all-or-nothing — with a credential configured,
a 200 status and a present `"list"` field, if the stride read at index 8·i
falls outside the list for some i below the day count, every summary built
so far is discarded and the adapter returns the single `IndexError` entry,
never a partial prefix of the days. -/
theorem weather_all_or_nothing (destination : String) (days : Nat) (api_key : Option String)
    (entries : List ForecastEntry) (hkey : key_configured api_key = true)
    (hfail : ∃ i, i < days ∧ entries.length ≤ 8 * i) :
    get_weather_forecast destination days api_key (Except.ok ⟨200, some entries⟩)
      = ["⚠️ Error fetching weather: list index out of range"] := by
  obtain ⟨i, hi, hlen⟩ := hfail
  have herr := forecast_loop_err entries days 0 ⟨i, Nat.zero_le i, by omega, by omega⟩
  simp [get_weather_forecast, hkey, herr]

/-- Witness for C10: two requested days over a one-entry list — day 1 is
read successfully, the stride read at index 8 fails, and the partial result
is discarded. -/
theorem weather_all_or_nothing_witness :
    get_weather_forecast "Goa" 2 (some "key") (Except.ok ⟨200, some [⟨"30", "clear sky"⟩]⟩)
      = ["⚠️ Error fetching weather: list index out of range"] :=
  weather_all_or_nothing "Goa" 2 (some "key") [⟨"30", "clear sky"⟩] (by decide)
    ⟨1, by decide, by decide⟩

/-- C8: the booking flag is false at session start; submitting a blank
(empty or whitespace-only) traveller name changes nothing and generates no
reference code; a non-blank name while the form is rendered sets the flag
and generates a reference code; once the flag is set, further submissions
change nothing and generate no further reference code (so it is set at most
once per generation); and the only event that makes the flag false again is
a new itinerary generation. -/
theorem booking_lifecycle :
    initState.booking_done = false
      ∧ (∀ (s : AppState) (name : String), strip name = "" →
            step s (Event.submitBooking name) = (s, false))
      ∧ (∀ (s : AppState) (name : String), strip name ≠ "" → itinerary_shown s = true →
            s.booking_done = false →
            step s (Event.submitBooking name) = ({ s with booking_done := true }, true))
      ∧ (∀ (s : AppState) (name : String), s.booking_done = true →
            step s (Event.submitBooking name) = (s, false))
      ∧ (∀ (s : AppState) (text : String), (step s (Event.generate text)).1.booking_done = false)
      ∧ (∀ (s : AppState) (e : Event), s.booking_done = true →
            (step s e).1.booking_done = false → ∃ t, e = Event.generate t) := by
  refine ⟨rfl, ?_, ?_, ?_, ?_, ?_⟩
  · intro s name h
    simp only [step]
    split <;> simp_all
  · intro s name h1 h2 h3
    simp only [step]
    rw [if_pos ⟨h2, by simp [h3]⟩, if_neg h1]
  · intro s name h
    simp only [step]
    rw [if_neg fun hc => hc.2 h]
  · intro s text
    rfl
  · intro s e h hfalse
    cases e with
    | generate t => exact ⟨t, rfl⟩
    | submitBooking name =>
      exfalso
      simp only [step] at hfalse
      rw [if_neg fun hc => hc.2 h] at hfalse
      rw [h] at hfalse
      exact absurd hfalse (by decide)

/-- Witness for C8: a blank-name submission against a session holding an
itinerary leaves the state unchanged and produces no reference code. -/
theorem booking_lifecycle_witness :
    strip "   " = ""
      ∧ step ⟨some "trip", false⟩ (Event.submitBooking "   ") = (⟨some "trip", false⟩, false) :=
  ⟨by decide, booking_lifecycle.2.1 ⟨some "trip", false⟩ "   " (by decide)⟩

end TripPlanner
